import Mathlib

/-!
Verification of the cost-estimation and configuration-persistence logic of
the LLMAIS Anthropic API client (`src/ais/api_client/anthropic/client.py`).

The shallow embedding below models:
* the pricing constants and model identifiers (SECTION 2 of the source),
* `estimate_cost` (cost lookup by case-insensitive family substring),
* the persisted JSON config record, `Client._load_model_from_config` and
  `Client._save_model_to_config` (file effects are modelled by an explicit
  `FileState`: the file is absent, unreadable, holds malformed text, or
  holds a parsed JSON value),
* `Client._get_context_limit`, `Client.set_model`, and one iteration of the
  two interactive selection loops of `Client._prompt_model_selection`
  (the console inputs become explicit arguments; `int(...)` parse failure
  becomes `Option.none`).
-/

/-- Model identifier constants from the source (SECTION 2). -/
def HAIKU_MODEL : String := "claude-haiku-4-5"

/-- Sonnet model identifier. -/
def SONNET_MODEL : String := "claude-sonnet-4-5"

/-- Opus model identifier. -/
def OPUS_MODEL : String := "claude-opus-4-5"

/-- Haiku input price (USD per 1M tokens). -/
def HAIKU_INPUT : ℚ := 1

/-- Haiku output price (USD per 1M tokens). -/
def HAIKU_OUTPUT : ℚ := 5

/-- Haiku context limit in tokens. -/
def HAIKU_CONTEXT : Int := 200000

/-- Sonnet input price (USD per 1M tokens). -/
def SONNET_INPUT : ℚ := 3

/-- Sonnet output price (USD per 1M tokens). -/
def SONNET_OUTPUT : ℚ := 15

/-- Sonnet context limit in tokens. -/
def SONNET_CONTEXT : Int := 200000

/-- Opus input price (USD per 1M tokens). -/
def OPUS_INPUT : ℚ := 5

/-- Opus output price (USD per 1M tokens). -/
def OPUS_OUTPUT : ℚ := 25

/-- Opus context limit in tokens. -/
def OPUS_CONTEXT : Int := 200000

/-- Python `str.lower()`: lower-case every character (ASCII-relevant for
the model identifiers involved). -/
def pyLower (s : String) : String := ⟨s.data.map Char.toLower⟩

/-- Bool test that `pat` occurs as a contiguous substring of `hay`,
character-list level; models Python `pat in hay` on strings. -/
def infixOfList (pat : List Char) : List Char → Bool
  | [] => pat.isEmpty
  | c :: rest => pat.isPrefixOf (c :: rest) || infixOfList pat rest

/-- `containsSub hay pat` models the Python expression `pat in hay`. -/
def containsSub (hay pat : String) : Bool := infixOfList pat.data hay.data

/-- The `ValueError` message raised by `estimate_cost` for an unknown model,
built exactly as the f-string in the source. -/
def unknownModelMsg (model : String) : String :=
  "\nUnknown model: " ++ model ++
  "\nValid models: " ++ HAIKU_MODEL ++ ", " ++ SONNET_MODEL ++ ", " ++ OPUS_MODEL ++
  "\nUse client.set_model() to change your model"

/-- `estimate_cost(input_tokens, output_tokens, model)` from the source:
family is chosen by case-insensitive substring match in the order
haiku, sonnet, opus; an unmatched model raises `ValueError`, modelled as
`Except.error` carrying the message. Costs are exact rationals. -/
def estimate_cost (input_tokens output_tokens : Int) (model : String) : Except String ℚ :=
  if containsSub (pyLower model) "haiku" then
    .ok (((input_tokens : ℚ) / 1000000) * HAIKU_INPUT + ((output_tokens : ℚ) / 1000000) * HAIKU_OUTPUT)
  else if containsSub (pyLower model) "sonnet" then
    .ok (((input_tokens : ℚ) / 1000000) * SONNET_INPUT + ((output_tokens : ℚ) / 1000000) * SONNET_OUTPUT)
  else if containsSub (pyLower model) "opus" then
    .ok (((input_tokens : ℚ) / 1000000) * OPUS_INPUT + ((output_tokens : ℚ) / 1000000) * OPUS_OUTPUT)
  else
    .error (unknownModelMsg model)

/-- The three priced model families of the spec's PricingTable. -/
inductive Family where
  | haiku
  | sonnet
  | opus
deriving DecidableEq

/-- Spec-side classifier: lower-case the model string and match the family
tokens as substrings, in the priority order haiku, sonnet, opus. -/
def familyOf (model : String) : Option Family :=
  if containsSub (pyLower model) "haiku" then some .haiku
  else if containsSub (pyLower model) "sonnet" then some .sonnet
  else if containsSub (pyLower model) "opus" then some .opus
  else none

/-- Spec-side input price of a family (USD per 1M tokens). -/
def input_price : Family → ℚ
  | .haiku => HAIKU_INPUT
  | .sonnet => SONNET_INPUT
  | .opus => OPUS_INPUT

/-- Spec-side output price of a family (USD per 1M tokens). -/
def output_price : Family → ℚ
  | .haiku => HAIKU_OUTPUT
  | .sonnet => SONNET_OUTPUT
  | .opus => OPUS_OUTPUT

/-- JSON values as stored in the persisted config record. Objects are
insertion-ordered key/value lists with distinct keys, matching Python
dict semantics after `json.load`. -/
inductive JValue where
  | jnull
  | jbool (b : Bool)
  | jnum (n : Int)
  | jstr (s : String)
  | jarr (xs : List JValue)
  | jobj (fields : List (String × JValue))

/-- Python `dict.get(k)`: the value at the first (unique) occurrence of
key `k`, or `none`. -/
def jlookup : List (String × JValue) → String → Option JValue
  | [], _ => none
  | (k', v) :: rest, k => if k' = k then some v else jlookup rest k

/-- Python `d[k] = v`: overwrite the value in place when the key exists,
otherwise append the new key at the end (dict insertion order). -/
def jset : List (String × JValue) → String → JValue → List (String × JValue)
  | [], k, v => [(k, v)]
  | (k', v') :: rest, k, v =>
    if k' = k then (k, v) :: rest else (k', v') :: jset rest k v

/-- The observable states of the config file `config/api/anthropic.json`:
absent, present but unreadable (opening or reading raises `IOError`),
present but not valid JSON (`json.load` raises `JSONDecodeError`), or
present with parsed content `j`. -/
inductive FileState where
  | absent
  | unreadable
  | malformed
  | content (j : JValue)

/-- Result of `Client._load_model_from_config`: whether the warning branch
printed, and the two values read (Python `None` becomes `Option.none`). -/
structure LoadResult where
  warned : Bool
  model : Option JValue
  max_tokens : Option JValue

/-- `Client._load_model_from_config` from the source. A missing file
returns `(None, None)` silently; `JSONDecodeError`/`IOError` are caught,
a warning is printed, and `(None, None)` is returned. On parsed content
the code runs `config.get('model')` and
`config.get('llm', {}).get('default_max_tokens')`; when the top-level
value or the `llm` value is not a dict, the resulting `AttributeError`
is not caught and propagates (`Except.error`). -/
def load_model_from_config (fs : FileState) : Except String LoadResult :=
  match fs with
  | .absent => .ok ⟨false, none, none⟩
  | .unreadable => .ok ⟨true, none, none⟩
  | .malformed => .ok ⟨true, none, none⟩
  | .content j =>
    match j with
    | .jobj fields =>
      match (jlookup fields "llm").getD (.jobj []) with
      | .jobj lf => .ok ⟨false, jlookup fields "model", jlookup lf "default_max_tokens"⟩
      | _ => .error "AttributeError"
    | _ => .error "AttributeError"

/-- The in-place update `_save_model_to_config` performs on the loaded
config dict: `config['model'] = self.model` then
`config['default_max_tokens'] = self.default_max_tokens`. -/
def save_merge (fields : List (String × JValue)) (model : String) (dmt : Int) :
    List (String × JValue) :=
  jset (jset fields "model" (.jstr model)) "default_max_tokens" (.jnum dmt)

/-- `Client._save_model_to_config` from the source: load the existing
record, treating absence, `IOError` and `JSONDecodeError` as the empty
dict `{}`; set the two owned keys; write the result back. When the file
parses to a non-object, the item assignment `config['model'] = ...`
raises an uncaught `TypeError` (`Except.error`). -/
def save_model_to_config (fs : FileState) (model : String) (dmt : Int) :
    Except String FileState :=
  match fs with
  | .content (.jobj fields) => .ok (.content (.jobj (save_merge fields model dmt)))
  | .content _ => .error "TypeError"
  | _ => .ok (.content (.jobj (save_merge [] model dmt)))

/-- Save followed by load on the resulting file, the round trip of the
spec's ConfigStore. -/
def save_then_load (fs : FileState) (model : String) (dmt : Int) :
    Except String LoadResult :=
  (save_model_to_config fs model dmt).bind load_model_from_config

/-- The re-prompt test in `Client.__init__`:
`if self.model is None or self.default_max_tokens is None`, the client
runs `_prompt_model_selection` again. -/
def init_needs_prompt (model max_tokens : Option JValue) : Bool :=
  model.isNone || max_tokens.isNone

/-- `Client._get_context_limit` from the source, with the 10000 fallback
for unrecognized models. -/
def get_context_limit (model : String) : Int :=
  if containsSub (pyLower model) "haiku" then HAIKU_CONTEXT
  else if containsSub (pyLower model) "sonnet" then SONNET_CONTEXT
  else if containsSub (pyLower model) "opus" then OPUS_CONTEXT
  else 10000

/-- The whitelist checked by `Client.set_model`. -/
def valid_models : List String := [HAIKU_MODEL, SONNET_MODEL, OPUS_MODEL]

/-- The `ValueError` message raised by `Client.set_model` for an invalid
model, built exactly as the f-string in the source. -/
def invalidModelMsg (model : String) : String :=
  "\nInvalid model: " ++ model ++
  "\nValid models: " ++ HAIKU_MODEL ++ ", " ++ SONNET_MODEL ++ ", " ++ OPUS_MODEL

/-- In-memory client preference state: `self.model` and
`self.default_max_tokens`. -/
structure ClientState where
  model : String
  default_max_tokens : Int

/-- Outcome of a `Client.set_model` call: the in-memory state and file
afterwards, the exception raised (if any), and how many times
`_save_model_to_config` was invoked. -/
structure SetModelResult where
  state : ClientState
  fs : FileState
  raised : Option String
  saves : Nat

/-- `Client.set_model` from the source: validate against the whitelist,
raising `ValueError` (state untouched, no save) on failure; otherwise
assign `self.model = model` and call `_save_model_to_config` once. -/
def set_model (st : ClientState) (fs : FileState) (m : String) : SetModelResult :=
  if m ∈ valid_models then
    match save_model_to_config fs m st.default_max_tokens with
    | .ok fs' => ⟨⟨m, st.default_max_tokens⟩, fs', none, 1⟩
    | .error e => ⟨⟨m, st.default_max_tokens⟩, fs, some e, 1⟩
  else ⟨st, fs, some (invalidModelMsg m), 0⟩

/-- Outcome of one iteration of the model-selection loop in
`Client._prompt_model_selection`. -/
inductive ModelChoice where
  | chosen (m : String)
  | quit
  | again

/-- One iteration of the model-selection loop: choices 1/2/3 pick a model
and leave the loop, 4 exits the process, anything else re-enters. -/
def model_choice_step (choice : String) : ModelChoice :=
  if choice = "1" then .chosen HAIKU_MODEL
  else if choice = "2" then .chosen SONNET_MODEL
  else if choice = "3" then .chosen OPUS_MODEL
  else if choice = "4" then .quit
  else .again

/-- Outcome of one iteration of the max-tokens selection loop: either the
loop breaks with `self.default_max_tokens = v`, or it re-enters. -/
inductive TokOutcome where
  | committed (v : Int)
  | again

/-- One iteration of the max-tokens loop together with the cost shown by
the high-cost warning, when that warning was printed. -/
structure TokStepResult where
  outcome : TokOutcome
  warnCost : Option (Except String ℚ)

/-- One iteration of the max-tokens selection loop of
`Client._prompt_model_selection`, for context limit `L` and selected
model `model`. `choice` is the menu input; `custom` is the result of
`int(input(...).strip())` (`none` when that raises `ValueError`);
`confirm` is the lower-cased confirmation input, read only when the
custom value is in range and exceeds 10000. Presets commit directly; a
custom value is committed iff `1 <= custom <= L` and, when over 10000,
the printed `estimate_cost(custom, custom, model)` warning is answered
with `y`; every other path re-enters the loop. -/
def max_tokens_step (L : Int) (model : String) (choice : String)
    (custom : Option Int) (confirm : String) : TokStepResult :=
  if choice = "1" then ⟨.committed 1024, none⟩
  else if choice = "2" then ⟨.committed 2048, none⟩
  else if choice = "3" then ⟨.committed 4096, none⟩
  else if choice = "4" then ⟨.committed 8192, none⟩
  else if choice = "5" then
    match custom with
    | none => ⟨.again, none⟩
    | some c =>
      if 1 ≤ c ∧ c ≤ L then
        if c > 10000 then
          if confirm = "y" then ⟨.committed c, some (estimate_cost c c model)⟩
          else ⟨.again, some (estimate_cost c c model)⟩
        else ⟨.committed c, none⟩
      else ⟨.again, none⟩
  else ⟨.again, none⟩

/-- Helper: a Python dict item assignment `d[k1] = v` leaves the lookup of
every other key `k` unchanged. -/
theorem jlookup_jset_of_ne (l : List (String × JValue)) (k1 k : String) (v : JValue)
    (h : k1 ≠ k) : jlookup (jset l k1 v) k = jlookup l k := by
  induction l with
  | nil => simp [jset, jlookup, h]
  | cons p rest ih =>
    obtain ⟨pk, pv⟩ := p
    by_cases hpk : pk = k1
    · subst hpk
      simp [jset, jlookup, h]
    · simp [jset, jlookup, hpk, ih]

/-- C1: the save/load round trip is broken in the code. Saving the valid
Preference (claude-sonnet-4-5, 2048) to a fresh config and loading it back
yields the model but `None` for `default_max_tokens`, because
`_save_model_to_config` writes `default_max_tokens` at the top level while
`_load_model_from_config` reads it from the nested `llm` object. -/
theorem round_trip_loses_max_tokens :
    save_then_load .absent SONNET_MODEL 2048 =
      .ok ⟨false, some (.jstr SONNET_MODEL), none⟩ ∧
    (none : Option JValue) ≠ some (.jnum 2048) := by
  refine ⟨rfl, ?_⟩
  intro h
  exact Option.noConfusion h

/-- C2: end-to-end first-run scenario. Choosing claude-sonnet-4-5 and
preset 2048 persists the flat record
`[("model", "claude-sonnet-4-5"), ("default_max_tokens", 2048)]`, which has
no `llm` key, so the subsequent load leaves `default_max_tokens` absent and
`Client.__init__` re-prompts — contradicting the claimed nested shape and
the claimed absence of re-prompting. -/
theorem persisted_record_not_nested :
    model_choice_step "2" = .chosen SONNET_MODEL ∧
    max_tokens_step 200000 SONNET_MODEL "2" none "" = ⟨.committed 2048, none⟩ ∧
    save_model_to_config .absent SONNET_MODEL 2048 =
      .ok (.content (.jobj
        [("model", .jstr SONNET_MODEL), ("default_max_tokens", .jnum 2048)])) ∧
    jlookup [("model", .jstr SONNET_MODEL), ("default_max_tokens", .jnum 2048)] "llm" =
      none ∧
    load_model_from_config (.content (.jobj
        [("model", .jstr SONNET_MODEL), ("default_max_tokens", .jnum 2048)])) =
      .ok ⟨false, some (.jstr SONNET_MODEL), none⟩ ∧
    init_needs_prompt (some (.jstr SONNET_MODEL)) none = true :=
  ⟨rfl, rfl, rfl, rfl, rfl, rfl⟩

/-- C3: on a parsed object record, `save` rewrites only the two owned keys
`model` and `default_max_tokens`; the lookup of every other top-level key is
unchanged by the merge. -/
theorem save_preserves_unrelated (fields : List (String × JValue)) (m : String)
    (dmt : Int) (k : String) (h1 : k ≠ "model") (h2 : k ≠ "default_max_tokens") :
    save_model_to_config (.content (.jobj fields)) m dmt =
      .ok (.content (.jobj (save_merge fields m dmt))) ∧
    jlookup (save_merge fields m dmt) k = jlookup fields k := by
  refine ⟨rfl, ?_⟩
  unfold save_merge
  rw [jlookup_jset_of_ne _ _ _ _ (Ne.symm h2), jlookup_jset_of_ne _ _ _ _ (Ne.symm h1)]

/-- Witness for C3 at the spec's own example: record `{"other": 1}`, saved
Preference (x, 2048). -/
theorem save_preserves_unrelated_witness :
    ("other" : String) ≠ "model" ∧ ("other" : String) ≠ "default_max_tokens" ∧
    (save_model_to_config (.content (.jobj [("other", .jnum 1)])) "x" 2048 =
       .ok (.content (.jobj (save_merge [("other", .jnum 1)] "x" 2048))) ∧
     jlookup (save_merge [("other", .jnum 1)] "x" 2048) "other" =
       jlookup [("other", .jnum 1)] "other") :=
  ⟨by decide, by decide,
   save_preserves_unrelated [("other", .jnum 1)] "x" 2048 "other"
     (by decide) (by decide)⟩

/-- C4: for all non-negative token counts and every model string classified
to a family by the case-insensitive substring match (priority order haiku,
sonnet, opus), `estimate_cost` returns exactly
`(i / 1_000_000) * input_price + (o / 1_000_000) * output_price` of that
family. -/
theorem estimate_cost_matches_pricing (i o : ℕ) (m : String) (f : Family)
    (h : familyOf m = some f) :
    estimate_cost i o m =
      .ok (((i : ℚ) / 1000000) * input_price f + ((o : ℚ) / 1000000) * output_price f) := by
  unfold familyOf at h
  unfold estimate_cost
  split_ifs at h ⊢ <;>
    simp_all [input_price, output_price] <;>
    cases h <;> norm_num

/-- Witness for C4: the mixed-case string Claude-Sonnet-4-5 classifies as
sonnet and is priced with the sonnet rates. -/
theorem estimate_cost_matches_pricing_witness :
    familyOf "Claude-Sonnet-4-5" = some .sonnet ∧
    estimate_cost 1000000 2000000 "Claude-Sonnet-4-5" =
      .ok (((1000000 : ℚ) / 1000000) * input_price .sonnet +
           ((2000000 : ℚ) / 1000000) * output_price .sonnet) :=
  ⟨by decide, estimate_cost_matches_pricing 1000000 2000000 "Claude-Sonnet-4-5" .sonnet
     (by decide)⟩

/-- Helper: an infix of the right part of an append is an infix of the
whole. -/
theorem infix_of_append_right {α : Type} {l l₂ : List α} (l₁ : List α)
    (h : l <:+: l₂) : l <:+: l₁ ++ l₂ := by
  obtain ⟨s, t, hst⟩ := h
  exact ⟨l₁ ++ s, t, by rw [← hst]; simp [List.append_assoc]⟩

/-- Helper: an infix of the left part of an append is an infix of the
whole. -/
theorem infix_of_append_left {α : Type} {l l₁ : List α} (l₂ : List α)
    (h : l <:+: l₁) : l <:+: l₁ ++ l₂ := by
  obtain ⟨s, t, hst⟩ := h
  exact ⟨s, t ++ l₂, by rw [← hst]; simp [List.append_assoc]⟩

/-- C5: on a model string matching none of the three family substrings,
`estimate_cost` fails with the `ValueError` whose message contains the
invalid string itself and each of the three valid identifiers; it never
returns a cost. -/
theorem estimate_cost_unknown_model (i o : Int) (m : String)
    (h : familyOf m = none) :
    estimate_cost i o m = .error (unknownModelMsg m) ∧
    m.data <:+: (unknownModelMsg m).data ∧
    HAIKU_MODEL.data <:+: (unknownModelMsg m).data ∧
    SONNET_MODEL.data <:+: (unknownModelMsg m).data ∧
    OPUS_MODEL.data <:+: (unknownModelMsg m).data := by
  refine ⟨?_, ?_, ?_, ?_, ?_⟩
  · unfold familyOf at h
    unfold estimate_cost
    split_ifs at h ⊢
    all_goals simp_all
  all_goals
    simp only [unknownModelMsg, String.data_append, List.append_assoc]
  · exact infix_of_append_right _ (infix_of_append_left _ List.infix_rfl)
  · exact infix_of_append_right _ (infix_of_append_right _ (infix_of_append_right _
      (infix_of_append_left _ List.infix_rfl)))
  · exact infix_of_append_right _ (infix_of_append_right _ (infix_of_append_right _
      (infix_of_append_right _ (infix_of_append_right _
        (infix_of_append_left _ List.infix_rfl)))))
  · exact infix_of_append_right _ (infix_of_append_right _ (infix_of_append_right _
      (infix_of_append_right _ (infix_of_append_right _ (infix_of_append_right _
        (infix_of_append_right _ (infix_of_append_left _ List.infix_rfl)))))))

/-- Witness for C5: the unrecognized model string gpt-4. -/
theorem estimate_cost_unknown_model_witness :
    familyOf "gpt-4" = none ∧
    (estimate_cost 5 7 "gpt-4" = .error (unknownModelMsg "gpt-4") ∧
     ("gpt-4").data <:+: (unknownModelMsg "gpt-4").data ∧
     HAIKU_MODEL.data <:+: (unknownModelMsg "gpt-4").data ∧
     SONNET_MODEL.data <:+: (unknownModelMsg "gpt-4").data ∧
     OPUS_MODEL.data <:+: (unknownModelMsg "gpt-4").data) :=
  ⟨by decide, estimate_cost_unknown_model 5 7 "gpt-4" (by decide)⟩

/-- C6: `set_model` on a non-whitelisted model raises `ValueError` with the
in-memory state and the file untouched and no save performed; on a
whitelisted model it sets only the model field, carries
`default_max_tokens` over unchanged, and invokes `_save_model_to_config`
exactly once. -/
theorem set_model_spec (st : ClientState) (fs : FileState) (m : String) :
    (m ∉ valid_models →
       set_model st fs m = ⟨st, fs, some (invalidModelMsg m), 0⟩) ∧
    (m ∈ valid_models →
       (set_model st fs m).state.model = m ∧
       (set_model st fs m).state.default_max_tokens = st.default_max_tokens ∧
       (set_model st fs m).saves = 1) := by
  constructor
  · intro hm
    simp [set_model, hm]
  · intro hm
    simp only [set_model, if_pos hm]
    cases hsave : save_model_to_config fs m st.default_max_tokens <;> simp

/-- Witness for C6: changing an existing (claude-sonnet-4-5, 4096) client
to claude-opus-4-5 keeps max tokens at 4096 and saves once. -/
theorem set_model_spec_witness :
    OPUS_MODEL ∈ valid_models ∧
    ((set_model ⟨SONNET_MODEL, 4096⟩ .absent OPUS_MODEL).state.model = OPUS_MODEL ∧
     (set_model ⟨SONNET_MODEL, 4096⟩ .absent OPUS_MODEL).state.default_max_tokens =
       (⟨SONNET_MODEL, 4096⟩ : ClientState).default_max_tokens ∧
     (set_model ⟨SONNET_MODEL, 4096⟩ .absent OPUS_MODEL).saves = 1) :=
  ⟨by decide, (set_model_spec ⟨SONNET_MODEL, 4096⟩ .absent OPUS_MODEL).2 (by decide)⟩

/-- C7: for a model chosen by the flow (one of the three identifiers, so
the context limit is 200000), a custom value equal to the limit is
accepted (committed after the high-cost confirmation), the limit plus one
and zero are rejected with the loop re-entered, and every value the loop
ever commits lies in `[1, 200000]`. -/
theorem choosing_max_tokens_boundary (m : String) (h : m ∈ valid_models) :
    get_context_limit m = 200000 ∧
    (max_tokens_step 200000 m "5" (some 200000) "y").outcome = .committed 200000 ∧
    (∀ confirm, (max_tokens_step 200000 m "5" (some 200001) confirm).outcome = .again) ∧
    (∀ confirm, (max_tokens_step 200000 m "5" (some 0) confirm).outcome = .again) ∧
    (∀ choice custom confirm v,
       (max_tokens_step 200000 m choice custom confirm).outcome = .committed v →
       1 ≤ v ∧ v ≤ 200000) := by
  refine ⟨?_, ?_, ?_, ?_, ?_⟩
  · simp only [valid_models, List.mem_cons, List.not_mem_nil, or_false] at h
    rcases h with rfl | rfl | rfl <;> decide
  · rfl
  · intro confirm
    rfl
  · intro confirm
    rfl
  · intro choice custom confirm v hv
    rcases custom with _ | c <;>
      · simp only [max_tokens_step] at hv
        split_ifs at hv <;> simp_all <;> omega

/-- Witness for C7 at the model claude-haiku-4-5. -/
theorem choosing_max_tokens_boundary_witness :
    HAIKU_MODEL ∈ valid_models ∧
    (get_context_limit HAIKU_MODEL = 200000 ∧
     (max_tokens_step 200000 HAIKU_MODEL "5" (some 200000) "y").outcome =
       .committed 200000 ∧
     (∀ confirm,
        (max_tokens_step 200000 HAIKU_MODEL "5" (some 200001) confirm).outcome =
          .again) ∧
     (∀ confirm,
        (max_tokens_step 200000 HAIKU_MODEL "5" (some 0) confirm).outcome = .again) ∧
     (∀ choice custom confirm v,
        (max_tokens_step 200000 HAIKU_MODEL choice custom confirm).outcome =
          .committed v →
        1 ≤ v ∧ v ≤ 200000)) :=
  ⟨by decide, choosing_max_tokens_boundary HAIKU_MODEL (by decide)⟩

/-- C8: an in-range custom value over 10000 shows the confirmation whose
cost is `estimate_cost(custom, custom, model)`; answering anything but `y`
re-enters the loop without committing, answering `y` commits; an in-range
value of at most 10000 commits directly with no confirmation shown. -/
theorem high_cost_confirmation (L : Int) (m : String) (c : Int) (confirm : String)
    (h1 : 1 ≤ c) (h2 : c ≤ L) :
    (10000 < c →
       (max_tokens_step L m "5" (some c) confirm).warnCost =
         some (estimate_cost c c m) ∧
       (confirm ≠ "y" →
          (max_tokens_step L m "5" (some c) confirm).outcome = .again) ∧
       (confirm = "y" →
          (max_tokens_step L m "5" (some c) confirm).outcome = .committed c)) ∧
    (c ≤ 10000 →
       max_tokens_step L m "5" (some c) confirm = ⟨.committed c, none⟩) := by
  refine ⟨fun hc => ?_, fun hc => ?_⟩
  · by_cases hy : confirm = "y"
    · refine ⟨?_, ?_, ?_⟩ <;> simp [max_tokens_step, h1, h2, hc, hy]
    · refine ⟨?_, ?_, ?_⟩ <;> simp [max_tokens_step, h1, h2, hc, hy]
  · have hc' : ¬ (10000 < c) := by omega
    simp [max_tokens_step, h1, h2, hc']

/-- Witness for C8: custom value 20000 on claude-sonnet-4-5 with the
confirmation declined. -/
theorem high_cost_confirmation_witness :
    (1 : Int) ≤ 20000 ∧ (20000 : Int) ≤ 200000 ∧
    ((10000 < (20000 : Int) →
        (max_tokens_step 200000 SONNET_MODEL "5" (some 20000) "n").warnCost =
          some (estimate_cost 20000 20000 SONNET_MODEL) ∧
        (("n" : String) ≠ "y" →
           (max_tokens_step 200000 SONNET_MODEL "5" (some 20000) "n").outcome =
             .again) ∧
        (("n" : String) = "y" →
           (max_tokens_step 200000 SONNET_MODEL "5" (some 20000) "n").outcome =
             .committed 20000)) ∧
     ((20000 : Int) ≤ 10000 →
        max_tokens_step 200000 SONNET_MODEL "5" (some 20000) "n" =
          ⟨.committed 20000, none⟩)) :=
  ⟨by decide, by decide,
   high_cost_confirmation 200000 SONNET_MODEL 20000 "n" (by decide) (by decide)⟩

/-- C9 counterexample: on a missing config file `_load_model_from_config`
returns `(None, None)` silently, before the try block — no warning is
printed — refuting the claim that a warning is surfaced in each of the
three tolerated cases. -/
theorem load_missing_file_no_warning :
    load_model_from_config .absent = .ok ⟨false, none, none⟩ ∧
    ((⟨false, none, none⟩ : LoadResult).warned = true → False) :=
  ⟨rfl, fun h => Bool.noConfusion h⟩

/-- C9 (amended): a missing file yields `(None, None)` silently; an
unreadable file or malformed JSON yields `(None, None)` with a warning;
in every case the caller continues, and `Client.__init__` proceeds into
the fresh-selection prompt. -/
theorem load_missing_tolerant :
    load_model_from_config .absent = .ok ⟨false, none, none⟩ ∧
    load_model_from_config .unreadable = .ok ⟨true, none, none⟩ ∧
    load_model_from_config .malformed = .ok ⟨true, none, none⟩ ∧
    init_needs_prompt none none = true :=
  ⟨rfl, rfl, rfl, rfl⟩

/-- C10: when the config file exists but is unreadable or fails to parse,
`_save_model_to_config` does not raise and preserves nothing: the record is
treated as empty and the file is rewritten to exactly the two owned fields,
discarding all previous content. -/
theorem save_discards_unparseable (m : String) (dmt : Int) :
    save_model_to_config .malformed m dmt =
      .ok (.content (.jobj
        [("model", .jstr m), ("default_max_tokens", .jnum dmt)])) ∧
    save_model_to_config .unreadable m dmt =
      .ok (.content (.jobj
        [("model", .jstr m), ("default_max_tokens", .jnum dmt)])) :=
  ⟨rfl, rfl⟩
